import Mathlib

set_option autoImplicit false

/-!
Verification of the metadata-extraction pipeline of the repository
(`lib/server/manager/index.js`, `lib/server/manager/metaParser.js` and
`lib/server/manager/DB.js`), against its natural-language specification.

The JavaScript is shallowly embedded: the dynamically typed values flowing
through the pipeline (xml2js parse trees, MongoDB documents) are modelled by
the inductive type `JsValue`; the lodash `_.get` path accessor, the JavaScript
string-to-number coercion, `String.prototype.replace`, `Date.parse` and
`new Date` are modelled by executable Lean functions on that type; the
effectful collaborators (HTTP download, zip/tar decompression, file parsing,
MongoDB writes) are modelled by explicit outcome environments, and the
orchestrator (`Manager.execute`) by a function from such an environment and a
store state to an outcome, a final store state and a debug log.
-/

/-- JavaScript numbers restricted to the fragment the pipeline produces:
integers and the `NaN` value (the unary `+` coercion of a non-numeric string,
`metaParser.js` line 85). -/
inductive JsNum where
  | num (v : Int)
  | nan
deriving DecidableEq

/-- A JavaScript `Date` object: either a finite time value (milliseconds since
the epoch) or the `Invalid Date` object produced by `new Date(NaN)`. -/
inductive JsDate where
  | validDate (ms : Int)
  | invalidDate
deriving DecidableEq

/-- JavaScript values flowing through the pipeline: the xml2js parse trees fed
to `mask()` (nulls, strings, arrays, plain objects) plus the values a masked
record can additionally contain (`undefined`, numbers, `Date` objects). -/
inductive JsValue where
  | vNull
  | vUndefined
  | vStr (s : String)
  | vNum (n : JsNum)
  | vDate (d : JsDate)
  | vArr (items : List JsValue)
  | vObj (fields : List (String × JsValue))

mutual

/-- Structural equality of modelled JavaScript values.  Used for the MongoDB
query match `{id: metadata.id}` in `DB.insertMetadata`; note BSON equality
matches `NaN` with `NaN`, which structural equality reproduces. -/
def jsEqB : JsValue → JsValue → Bool
  | .vNull, .vNull => true
  | .vUndefined, .vUndefined => true
  | .vStr s, .vStr t => s == t
  | .vNum a, .vNum b => a == b
  | .vDate a, .vDate b => a == b
  | .vArr xs, .vArr ys => jsEqBList xs ys
  | .vObj fs, .vObj gs => jsEqBFields fs gs
  | _, _ => false

/-- Pointwise `jsEqB` on arrays. -/
def jsEqBList : List JsValue → List JsValue → Bool
  | [], [] => true
  | x :: xs, y :: ys => jsEqB x y && jsEqBList xs ys
  | _, _ => false

/-- Pointwise `jsEqB` on object field lists. -/
def jsEqBFields : List (String × JsValue) → List (String × JsValue) → Bool
  | [], [] => true
  | (n, v) :: fs, (m, w) :: gs => n == m && jsEqB v w && jsEqBFields fs gs
  | _, _ => false

end

/-- JavaScript loose equality with `null` (`x == null`), true exactly for
`null` and `undefined`.  This is the test in `DB.insertMetadata`
(`assert.strictEqual(metadata.id == null, false)`) and in the
`publicationDateString != null` conditional of `mask()`. -/
def jsLooseEqNull : JsValue → Bool
  | .vNull => true
  | .vUndefined => true
  | _ => false

/-- JavaScript truthiness, as used by the `.filter((subject) => subject)` and
`.filter((author) => author)` calls in `mask()`: `null`, `undefined`, the
empty string, `0` and `NaN` are falsy; every object (arrays, plain objects,
`Date` objects) is truthy. -/
def jsTruthy : JsValue → Bool
  | .vNull => false
  | .vUndefined => false
  | .vStr s => !(s == "")
  | .vNum (.num v) => !(v == 0)
  | .vNum .nan => false
  | .vDate _ => true
  | .vArr _ => true
  | .vObj _ => true

/-- One step of a lodash `_.get` path: a named property or an array index. -/
inductive PathStep where
  | field (name : String)
  | index (i : Nat)

/-- Lodash `_.get` without a default: walks the path and yields `undefined` as
soon as a step does not resolve.  A numeric index applied to an object looks
up the decimal key, and a named step applied to an array that is all digits
indexes the array, mirroring lodash path normalization; built-in properties
such as `length` are not modelled because no path in `metaParser.js` uses
them. -/
def jsGet : JsValue → List PathStep → JsValue
  | v, [] => v
  | .vObj fields, .field n :: rest =>
    match fields.lookup n with
    | some w => jsGet w rest
    | none => .vUndefined
  | .vObj fields, .index i :: rest =>
    match fields.lookup (toString i) with
    | some w => jsGet w rest
    | none => .vUndefined
  | .vArr items, .index i :: rest =>
    match items.get? i with
    | some w => jsGet w rest
    | none => .vUndefined
  | .vArr items, .field n :: rest =>
    match n.toNat? with
    | some i =>
      match items.get? i with
      | some w => jsGet w rest
      | none => .vUndefined
    | none => .vUndefined
  | _, _ => .vUndefined

/-- Lodash `_.get` with a default value: the default replaces the result
exactly when the resolved value is `undefined` (a resolved `null` passes
through unchanged). -/
def jsGetD (v : JsValue) (path : List PathStep) (dflt : JsValue) : JsValue :=
  match jsGet v path with
  | .vUndefined => dflt
  | w => w

/-- ASCII whitespace recognized by the JavaScript string-to-number coercion.
(The full language also trims Unicode spaces; catalog identifiers are
ASCII.) -/
def isJsSpace (c : Char) : Bool :=
  (c == ' ') || (c == '\t') || (c == '\n') || (c == '\r')

/-- Decimal digit test, by code point. -/
def isDig (c : Char) : Bool :=
  48 ≤ c.toNat && c.toNat ≤ 57

/-- Value of a decimal digit character. -/
def digitVal (c : Char) : Nat :=
  c.toNat - 48

/-- Reads a non-empty all-digit character list as a natural number. -/
def decDigits? (cs : List Char) : Option Nat :=
  if cs.isEmpty then none
  else if cs.all isDig then some (cs.foldl (fun acc c => 10 * acc + digitVal c) 0)
  else none

/-- Trims leading and trailing JavaScript whitespace from a character list. -/
def jsTrimChars (cs : List Char) : List Char :=
  ((cs.dropWhile isJsSpace).reverse.dropWhile isJsSpace).reverse

/-- The JavaScript string-to-number coercion (unary `+` in
`metaParser.js` line 85), on the integer fragment: whitespace is trimmed, the
empty string yields `0`, an optionally signed run of decimal digits yields its
value, and everything else yields `NaN`.  Fractional, exponent, hexadecimal
and `Infinity` literals are outside the modelled fragment (no catalog
resource identifier takes those forms) and also map to `NaN`. -/
def jsStringToNumber (s : String) : JsNum :=
  match jsTrimChars s.data with
  | [] => .num 0
  | '+' :: rest =>
    match decDigits? rest with
    | some n => .num n
    | none => .nan
  | '-' :: rest =>
    match decDigits? rest with
    | some n => .num (-(n : Int))
    | none => .nan
  | cs =>
    match decDigits? cs with
    | some n => .num n
    | none => .nan

/-- Model of `String.prototype.replace` with a string pattern, on character lists:
replaces the first occurrence of `pat` only, and returns the input unchanged
when the pattern does not occur. -/
def jsReplaceFirstChars (pat rep : List Char) : List Char → List Char
  | [] => if pat.isEmpty then rep else []
  | c :: rest =>
    if pat.isPrefixOf (c :: rest) then rep ++ (c :: rest).drop pat.length
    else c :: jsReplaceFirstChars pat rep rest

/-- Model of `String.prototype.replace` with a string pattern, as called by
`mask()` (`.replace('ebooks/', '')` on the `rdf:about` attribute). -/
def jsReplaceFirst (s pat rep : String) : String :=
  String.mk (jsReplaceFirstChars pat.data rep.data s.data)

/-- Leap-year rule of the proleptic Gregorian calendar. -/
def isLeapYear (y : Int) : Bool :=
  y % 4 == 0 && (!(y % 100 == 0) || y % 400 == 0)

/-- Number of days in a month. -/
def daysInMonth (y m : Int) : Int :=
  if m == 2 then (if isLeapYear y then 29 else 28)
  else if m == 4 || m == 6 || m == 9 || m == 11 then 30
  else 31

/-- Days from the epoch 1970-01-01 to the civil date `y-m-d` (proleptic
Gregorian), the standard era-based calendar algorithm. -/
def daysFromCivil (y m d : Int) : Int :=
  let yy := if m ≤ 2 then y - 1 else y
  let era := (if 0 ≤ yy then yy else yy - 399) / 400
  let yoe := yy - era * 400
  let mp := (m + 9) % 12
  let doy := (153 * mp + 2) / 5 + d - 1
  let doe := yoe * 365 + yoe / 4 - yoe / 100 + doy
  era * 146097 + doe - 719468

/-- The four-digit year field of a `YYYY-MM-DD` date string. -/
def ymdYear (y1 y2 y3 y4 : Char) : Int :=
  (digitVal y1 : Int) * 1000 + (digitVal y2 : Int) * 100 + (digitVal y3 : Int) * 10 +
    (digitVal y4 : Int)

/-- The two-digit month field of a `YYYY-MM-DD` date string. -/
def ymdMonth (m1 m2 : Char) : Int :=
  (digitVal m1 : Int) * 10 + (digitVal m2 : Int)

/-- The two-digit day field of a `YYYY-MM-DD` date string. -/
def ymdDay (d1 d2 : Char) : Int :=
  (digitVal d1 : Int) * 10 + (digitVal d2 : Int)

/-- Model of `Date.parse` applied to the ten digit-and-hyphen characters of a
candidate `YYYY-MM-DD` date-only string: the time value in milliseconds when
the fields are digits and denote a valid calendar date, `NaN` otherwise. -/
def parseYmd (y1 y2 y3 y4 h1 m1 m2 h2 d1 d2 : Char) : JsNum :=
  if (h1 == '-') && (h2 == '-') && isDig y1 && isDig y2 && isDig y3 && isDig y4 &&
      isDig m1 && isDig m2 && isDig d1 && isDig d2 then
    if 1 ≤ ymdMonth m1 m2 ∧ ymdMonth m1 m2 ≤ 12 ∧ 1 ≤ ymdDay d1 d2 ∧
        ymdDay d1 d2 ≤ daysInMonth (ymdYear y1 y2 y3 y4) (ymdMonth m1 m2) then
      .num (daysFromCivil (ymdYear y1 y2 y3 y4) (ymdMonth m1 m2) (ymdDay d1 d2) * 86400000)
    else .nan
  else .nan

/-- Model of `Date.parse` of a string, on the fragment the catalog exercises: the
ISO 8601 date-only form `YYYY-MM-DD` (the format of the `dcterms:issued` text
nodes).  Date-time forms, extended years and the implementation-defined
fallback formats are outside the modelled fragment and map to `NaN`. -/
def jsDateParseChars : List Char → JsNum
  | [y1, y2, y3, y4, h1, m1, m2, h2, d1, d2] => parseYmd y1 y2 y3 y4 h1 m1 m2 h2 d1 d2
  | _ => .nan

/-- Model of `Date.parse` as called by `mask()` on the issued-date value
(`metaParser.js` line 106, inside `new Date(Date.parse(...))`).  A non-string
argument is coerced with `toString` first; no non-string value reaching this
call site stringifies to a date of the modelled fragment, so those map to
`NaN`. -/
def jsDateParse : JsValue → JsNum
  | .vStr s => jsDateParseChars s.data
  | _ => .nan

/-- Model of `new Date(t)` for a numeric argument: a valid date for a finite time
value within the representable range, the `Invalid Date` object for `NaN` or
an out-of-range value. -/
def jsNewDate : JsNum → JsDate
  | .num ms => if ms.natAbs ≤ 8640000000000000 then .validDate ms else .invalidDate
  | .nan => .invalidDate

/-- The error string of the MetaParser section of `lib/errorids.js`. -/
def parsedXmlNotFound : String :=
  "The parsed XML was not found. Please make sure to call `metaParser.parse()` first."

/-- The not-initialized error string of the DB section of `lib/errorids.js`. -/
def dbNotInitialized : String :=
  "The db has not been initialized."

/-- Errors raised by the embedded code: errors produced and propagated by
external collaborators (network, zip/tar, xml2js, MongoDB), JavaScript
`TypeError`s raised by the code itself, and the `AssertionError` of the
`assert` module. -/
inductive JsError where
  | external (tag : String)
  | typeError (msg : String)
  | assertionError (msg : String)
deriving DecidableEq

/-- One call to the injected `debug` sink: a plain message, the
`debug('Warning:', new Error(eid), rdfPath)` warning of `mask()`, or the
`debug(e)` of an error value. -/
inductive LogEntry where
  | msg (s : String)
  | warnEntry (eid : String) (path : String)
  | errEntry (e : JsError)
deriving DecidableEq

/-- The lodash path `rdf:RDF.pgterms:ebook[0].$.rdf:about`
(`metaParser.js` lines 85-86). -/
def aboutPath : List PathStep :=
  [.field "rdf:RDF", .field "pgterms:ebook", .index 0, .field "$", .field "rdf:about"]

/-- The lodash path
`rdf:RDF.pgterms:ebook[0].dcterms:language[0].rdf:Description[0].rdf:value[0]._`
(`metaParser.js` lines 87-89). -/
def languagePath : List PathStep :=
  [.field "rdf:RDF", .field "pgterms:ebook", .index 0, .field "dcterms:language", .index 0,
    .field "rdf:Description", .index 0, .field "rdf:value", .index 0, .field "_"]

/-- The lodash path `rdf:RDF.pgterms:ebook[0].dcterms:title[0]`
(`metaParser.js` lines 90-91). -/
def titlePath : List PathStep :=
  [.field "rdf:RDF", .field "pgterms:ebook", .index 0, .field "dcterms:title", .index 0]

/-- The lodash path `rdf:RDF.pgterms:ebook[0].dcterms:subject`
(`metaParser.js` lines 92-93). -/
def subjectsPath : List PathStep :=
  [.field "rdf:RDF", .field "pgterms:ebook", .index 0, .field "dcterms:subject"]

/-- The per-item lodash path `rdf:Description[0].rdf:value[0]`
(`metaParser.js` line 95). -/
def subjectValuePath : List PathStep :=
  [.field "rdf:Description", .index 0, .field "rdf:value", .index 0]

/-- The lodash path `rdf:RDF.pgterms:ebook[0].dcterms:creator[0].pgterms:agent`
(`metaParser.js` lines 98-99). -/
def agentsPath : List PathStep :=
  [.field "rdf:RDF", .field "pgterms:ebook", .index 0, .field "dcterms:creator", .index 0,
    .field "pgterms:agent"]

/-- The per-item lodash path `pgterms:name[0]` (`metaParser.js` line 100). -/
def agentNamePath : List PathStep :=
  [.field "pgterms:name", .index 0]

/-- The lodash path `rdf:RDF.pgterms:ebook[0].dcterms:rights`
(`metaParser.js` lines 102-103). -/
def rightsPath : List PathStep :=
  [.field "rdf:RDF", .field "pgterms:ebook", .index 0, .field "dcterms:rights"]

/-- The lodash path `rdf:RDF.pgterms:ebook[0].dcterms:issued[0]._`
(`metaParser.js` lines 104-105). -/
def issuedPath : List PathStep :=
  [.field "rdf:RDF", .field "pgterms:ebook", .index 0, .field "dcterms:issued", .index 0,
    .field "_"]

/-- The lodash path `rdf:RDF.pgterms:ebook[0].dcterms:publisher[0]`
(`metaParser.js` lines 108-109). -/
def publisherPath : List PathStep :=
  [.field "rdf:RDF", .field "pgterms:ebook", .index 0, .field "dcterms:publisher", .index 0]

/-- The masked record built by `MetaParser.mask` (the `MaskedMetadata` typedef
of `metaParser.js`): `title`, `publisher`, `language`, `rights` keep whatever
raw node the lodash path produced (`null` when defaulted), `subjects` and
`authors` are the filtered mapped arrays, `id` is a JavaScript number and
`publicationDate` is `null` or a `Date` object. -/
structure MaskedMetadata where
  id : JsNum
  language : JsValue
  title : JsValue
  subjects : List JsValue
  authors : List JsValue
  rights : JsValue
  publicationDate : Option JsDate
  publisher : JsValue

/-- The field extraction of `mask()` (`metaParser.js` lines 85-123), given the
parsed tree, the already-coerced id, and the subject and agent entry arrays
the two `.map(...).filter(...)` chains run over. -/
def maskFields (xml : JsValue) (idv : JsNum) (sitems aitems : List JsValue) :
    MaskedMetadata where
  id := idv
  language := jsGetD xml languagePath .vNull
  title := jsGetD xml titlePath .vNull
  subjects := (sitems.map (fun item => jsGetD item subjectValuePath .vNull)).filter jsTruthy
  authors := (aitems.map (fun item => jsGetD item agentNamePath .vNull)).filter jsTruthy
  rights := jsGetD xml rightsPath (.vArr [])
  publicationDate :=
    let pd := jsGetD xml issuedPath .vNull
    if jsLooseEqNull pd then none else some (jsNewDate (jsDateParse pd))
  publisher := jsGetD xml publisherPath .vNull

/-- Outcome of a call to `mask()`: the `null` return of the no-document
branch, a masked record, or a thrown `TypeError` (calling `.replace` on a
value that is not a string, or `.map` on a value that is not an array). -/
inductive MaskResult where
  | nullResult
  | masked (m : MaskedMetadata)
  | typeError (msg : String)

/-- Model of `MetaParser.mask` (`metaParser.js` lines 70-124).  The instance state
`this._priv.parsedXml` is passed explicitly (`none` models the `== null`
check succeeding), together with `this._priv.rdfPath` for the warning the
no-document branch sends to the `debug` sink.  Returns the call's outcome
together with the debug entries it emitted. -/
def mask (rdfPath : String) (parsedXml : Option JsValue) : MaskResult × List LogEntry :=
  match parsedXml with
  | none => (.nullResult, [.warnEntry parsedXmlNotFound rdfPath])
  | some xml =>
    match jsGet xml aboutPath with
    | .vStr about =>
      match jsGetD xml subjectsPath (.vArr []) with
      | .vArr sitems =>
        match jsGetD xml agentsPath (.vArr []) with
        | .vArr aitems =>
          (.masked (maskFields xml (jsStringToNumber (jsReplaceFirst about "ebooks/" ""))
            sitems aitems), [])
        | _ => (.typeError "map is not a function", [])
      | _ => (.typeError "map is not a function", [])
    | .vUndefined => (.typeError "Cannot read properties of undefined", [])
    | .vNull => (.typeError "Cannot read properties of null", [])
    | _ => (.typeError "replace is not a function", [])

/-- Direct JavaScript property access `v.name` on a value that is neither
`null` nor `undefined`: the field of an object, `undefined` otherwise
(property access on primitives yields `undefined`; access on `null` or
`undefined` throws and is handled at the call sites). -/
def objGet (v : JsValue) (name : String) : JsValue :=
  match v with
  | .vObj fields =>
    match fields.lookup name with
    | some w => w
    | none => .vUndefined
  | _ => .vUndefined

/-- The MongoDB document written for a masked record: the eight fields of the
`MaskedMetadata` object, serialized into the modelled value universe. -/
def maskedToJs (m : MaskedMetadata) : JsValue :=
  .vObj [("id", .vNum m.id), ("language", m.language), ("title", m.title),
    ("subjects", .vArr m.subjects), ("authors", .vArr m.authors),
    ("rights", m.rights),
    ("publicationDate", match m.publicationDate with
      | none => .vNull
      | some d => .vDate d),
    ("publisher", m.publisher)]

/-- Model of the MongoDB call `collection.update` with the `id` equality
filter, the full metadata document and the upsert option (`DB.js` lines
77-84): the collection is a sequence of documents; the update
replaces the first document whose `id` field matches the query value (BSON
equality) with the full replacement document, and appends the document when no
stored document matches. -/
def upsertById : List JsValue → JsValue → List JsValue
  | [], metadata => [metadata]
  | doc :: rest, metadata =>
    if jsEqB (objGet doc "id") (objGet metadata "id") then metadata :: rest
    else doc :: upsertById rest metadata

/-- Model of `DB.insertMetadata` (`DB.js` lines 73-87).  `ready` is the
`this.isReady()` readiness flag; `writeOutcome` is the outcome of the awaited
MongoDB update itself (`some e` models a connection or write failure reported
by the driver, `none` a successful write).  The method throws
`NOT_INITIALIZED` when not ready, a `TypeError` when `metadata` is `null` or
`undefined` (the `metadata.id` access), an `AssertionError` when
`metadata.id == null`, and otherwise performs the upsert. -/
def insertMetadata (ready : Bool) (writeOutcome : Option JsError)
    (store : List JsValue) (metadata : JsValue) : Except JsError (List JsValue) :=
  if ready then
    if jsLooseEqNull metadata then
      .error (.typeError "Cannot read property id of null or undefined")
    else if jsLooseEqNull (objGet metadata "id") then
      .error (.assertionError "Expected metadata.id == null to be false")
    else
      match writeOutcome with
      | some e => .error e
      | none => .ok (upsertById store metadata)
  else
    .error (.external dbNotInitialized)

/-- Outcomes of the collaborator calls inside `Manager.downloadAndDecompress`
(`manager/index.js` lines 106-144), `none` meaning the stage succeeds:
`httpGetSync` a synchronous throw of the `http.get` call (the only throw the
`try` around it can catch), `streamError` a failure of the download stream or
response (its `error` events have no listener), `zipError` a throw of the
adm-zip extraction inside the `file.close` callback, and `tarError` a
rejection of the `tar.extract` promise (whose `.then` has no rejection
handler). -/
structure DownloadEnv where
  httpGetSync : Option JsError
  streamError : Option JsError
  zipError : Option JsError
  tarError : Option JsError

/-- How the promise returned by `downloadAndDecompress` settles: resolution,
rejection with an error, or never settling because the error escaped the
promise (an exception thrown in a stream callback after the `try` block has
returned, or an unhandled rejection of the inner `tar.extract` promise) — in
which case the awaiting caller never resumes. -/
inductive PromiseOutcome where
  | resolved
  | rejected (e : JsError)
  | unsettled (e : JsError)
deriving DecidableEq

/-- Model of `Manager.downloadAndDecompress` (`manager/index.js` lines 106-144): the
settlement of the returned promise together with the progress messages sent to
`debug` before the first failing stage.  Only a synchronous throw of
`http.get` reaches the `catch (e) { reject(e); }`; the zip, tar and stream
failures happen inside nested callbacks and never settle the promise. -/
def downloadAndDecompress (env : DownloadEnv) : PromiseOutcome × List LogEntry :=
  let l1 : List LogEntry := [.msg "Starting feed file download."]
  match env.httpGetSync with
  | some e => (.rejected e, l1)
  | none =>
    match env.streamError with
    | some e => (.unsettled e, l1)
    | none =>
      let l2 := l1 ++ [.msg "Finished feed file download.", .msg "Starting decompressing zip file."]
      match env.zipError with
      | some e => (.unsettled e, l2)
      | none =>
        let l3 := l2 ++ [.msg "Finished decompressing zip file.",
          .msg "Starting decompressing tar file."]
        match env.tarError with
        | some e => (.unsettled e, l3)
        | none => (.resolved, l3 ++ [.msg "Finished decompressing tar file."])

/-- One discovered record file, as the per-file loop of `Manager.execute`
sees it: its path, the outcome of `new MetaParser({rdfPath, debug}).parse()`
(the parsed xml2js tree, or a thrown read/parse error), and the outcome of
the MongoDB write issued for it. -/
structure FileEnv where
  path : String
  parseResult : Except JsError JsValue
  writeResult : Option JsError

/-- The collaborator outcomes of one `Manager.execute` run: the generated
session identifier, the download/decompression outcomes, the file list
returned by `recursive(unzipFolderPath, ['*.tar'])`, and the readiness flag of
the `DB` instance. -/
structure Env where
  session : String
  dl : DownloadEnv
  files : List FileEnv
  dbReady : Bool

/-- The value `{ok: true, n: fileList.length}` returned by `Manager.execute`. -/
structure ExecResult where
  ok : Bool
  n : Nat
deriving DecidableEq

/-- How a call to `Manager.execute` ends: a returned value, a rethrown error,
or no return at all (the awaited download promise never settles; the
underlying collaborator error is recorded for reference). -/
inductive ExecOutcome where
  | completed (r : ExecResult)
  | threw (e : JsError)
  | noReturn (e : JsError)
deriving DecidableEq

/-- The per-file loop of `Manager.execute` (`manager/index.js` lines 80-85):
for each file, `parse` then `mask` then `insertMetadata`, stopping at the
first thrown error.  Returns the first error (if any), the final store state,
and the debug entries emitted by the loop body. -/
def processFiles (ready : Bool) :
    List FileEnv → List JsValue → Option JsError × List JsValue × List LogEntry
  | [], store => (none, store, [])
  | f :: rest, store =>
    match f.parseResult with
    | .error e => (some e, store, [])
    | .ok xml =>
      match mask f.path (some xml) with
      | (.typeError tmsg, mlog) => (some (.typeError tmsg), store, mlog)
      | (maskRes, mlog) =>
        let metaJs := match maskRes with
          | .masked m => maskedToJs m
          | _ => JsValue.vNull
        match insertMetadata ready f.writeResult store metaJs with
        | .error e => (some e, store, mlog)
        | .ok store2 =>
          let r := processFiles ready rest store2
          (r.1, r.2.1, mlog ++ r.2.2)

/-- Model of `Manager.execute` (`manager/index.js` lines 67-98): logs the session id,
awaits `downloadAndDecompress`, lists the record files, runs the per-file
loop, and returns `{ok: true, n: fileList.length}`; any error caught by the
surrounding `try` is logged (`debug(e)`) and rethrown unmodified.  Returns
the call outcome, the final store state, and the debug log. -/
def execute (env : Env) (store : List JsValue) :
    ExecOutcome × List JsValue × List LogEntry :=
  let log0 : List LogEntry := [.msg ("Session id: " ++ env.session)]
  match downloadAndDecompress env.dl with
  | (.rejected e, dlog) => (.threw e, store, log0 ++ dlog ++ [.errEntry e])
  | (.unsettled e, dlog) => (.noReturn e, store, log0 ++ dlog)
  | (.resolved, dlog) =>
    let log1 := log0 ++ dlog ++
      [.msg ("Starting processing " ++ toString env.files.length ++ " files.")]
    match processFiles env.dbReady env.files store with
    | (some e, store2, plog) => (.threw e, store2, log1 ++ plog ++ [.errEntry e])
    | (none, store2, plog) =>
      (.completed ⟨true, env.files.length⟩, store2,
        log1 ++ plog ++ [.msg "Finished processing files."])

/-- The parsed tree of the catalog's record for entry 10 (the King James
Bible entry used by the repository's own MetaParser test), in xml2js shape:
repeated elements become arrays, attributes live under `$`, text content of
an element with attributes lives under `_`. -/
def kjvDoc : JsValue :=
  .vObj [("rdf:RDF", .vObj [("pgterms:ebook", .vArr [
    .vObj [
      ("$", .vObj [("rdf:about", .vStr "ebooks/10")]),
      ("dcterms:language", .vArr [.vObj [("rdf:Description",
        .vArr [.vObj [("rdf:value", .vArr [.vObj [("_", .vStr "en")]])]])]]),
      ("dcterms:title", .vArr [.vStr "The King James Version of the Bible"]),
      ("dcterms:subject", .vArr [
        .vObj [("rdf:Description", .vArr [.vObj [("rdf:value", .vArr [.vStr "Bible"])]])],
        .vObj [("rdf:Description", .vArr [.vObj [("rdf:value", .vArr [.vStr "BS"])]])]]),
      ("dcterms:rights", .vArr [.vStr "Public domain in the USA."]),
      ("dcterms:issued", .vArr [.vObj [("_", .vStr "1989-08-01")]]),
      ("dcterms:publisher", .vArr [.vStr "Project Gutenberg"])]])])]

/-- The subject entries of `kjvDoc`, as the `.map` chain of `mask()` receives
them. -/
def kjvSubjectItems : List JsValue :=
  [.vObj [("rdf:Description", .vArr [.vObj [("rdf:value", .vArr [.vStr "Bible"])]])],
    .vObj [("rdf:Description", .vArr [.vObj [("rdf:value", .vArr [.vStr "BS"])]])]]

/-- The masked record `mask()` produces for `kjvDoc` (the expectation of the
repository's MetaParser test). -/
def kjvRecord : MaskedMetadata :=
  { id := .num 10, language := .vStr "en",
    title := .vStr "The King James Version of the Bible",
    subjects := [.vStr "Bible", .vStr "BS"], authors := [],
    rights := .vArr [.vStr "Public domain in the USA."],
    publicationDate := some (.validDate 617932800000),
    publisher := .vStr "Project Gutenberg" }

/-- A minimal parsed tree whose catalog-entry resource identifier carries a
URL-style prefix before `ebooks/10`, so that it ends in `ebooks/10` without
being equal to it. -/
def urlAboutDoc : JsValue :=
  .vObj [("rdf:RDF", .vObj [("pgterms:ebook", .vArr [
    .vObj [("$", .vObj [("rdf:about", .vStr "http://x/ebooks/10")])]])])]

/-- The masked record `mask()` produces for `urlAboutDoc`: every optional
field defaults and the id is `NaN`. -/
def urlAboutRecord : MaskedMetadata :=
  { id := .nan, language := .vNull, title := .vNull, subjects := [], authors := [],
    rights := .vArr [], publicationDate := none, publisher := .vNull }

/-- A minimal parsed tree whose catalog-entry resource identifier has the
non-numeric suffix `xyz` after the `ebooks/` prefix. -/
def nanAboutDoc : JsValue :=
  .vObj [("rdf:RDF", .vObj [("pgterms:ebook", .vArr [
    .vObj [("$", .vObj [("rdf:about", .vStr "ebooks/xyz")])]])])]

/-- The masked record `mask()` produces for `nanAboutDoc`: the `NaN` id with
every optional field defaulted. -/
def nanAboutRecord : MaskedMetadata :=
  { id := .nan, language := .vNull, title := .vNull, subjects := [], authors := [],
    rights := .vArr [], publicationDate := none, publisher := .vNull }

/-- The record-file environment for a run whose inner tape archive is
corrupt: `tar.extract` rejects and every earlier stage succeeds. -/
def tarCorrupt : JsError := .external "corrupt tar archive"

/-- A run environment in which download and zip extraction succeed and the
tar extraction fails. -/
def envTarFail : Env :=
  { session := "s",
    dl := { httpGetSync := none, streamError := none, zipError := none,
            tarError := some tarCorrupt },
    files := [], dbReady := true }

/-- A parse error, as thrown by `fs.readFileSync` or
`xml2js.parseStringPromise` for a malformed record file. -/
def parseFailure : JsError := .external "malformed record file"

/-- A run environment in which fetch and decompression succeed and the single
discovered file fails to parse. -/
def envParseFail : Env :=
  { session := "s",
    dl := { httpGetSync := none, streamError := none, zipError := none, tarError := none },
    files := [{ path := "a.rdf", parseResult := .error parseFailure, writeResult := none }],
    dbReady := true }

/-- A run environment whose stages all succeed and whose archive expands to
no record files. -/
def envEmpty : Env :=
  { session := "s",
    dl := { httpGetSync := none, streamError := none, zipError := none, tarError := none },
    files := [], dbReady := true }

/-- A run environment whose stages all succeed with one record file, the
King James Bible entry. -/
def envOneFile : Env :=
  { session := "s",
    dl := { httpGetSync := none, streamError := none, zipError := none, tarError := none },
    files := [{ path := "cache/epub/10/pg10.rdf", parseResult := .ok kjvDoc,
                writeResult := none }],
    dbReady := true }

mutual

theorem jsEqB_refl : (a : JsValue) → jsEqB a a = true
  | .vNull => rfl
  | .vUndefined => rfl
  | .vStr s => by simp [jsEqB]
  | .vNum a => by simp [jsEqB]
  | .vDate a => by simp [jsEqB]
  | .vArr xs => by simp [jsEqB, jsEqBList_refl xs]
  | .vObj fs => by simp [jsEqB, jsEqBFields_refl fs]

theorem jsEqBList_refl : (xs : List JsValue) → jsEqBList xs xs = true
  | [] => rfl
  | x :: xs => by simp [jsEqBList, jsEqB_refl x, jsEqBList_refl xs]

theorem jsEqBFields_refl : (fs : List (String × JsValue)) → jsEqBFields fs fs = true
  | [] => rfl
  | (n, v) :: fs => by simp [jsEqBFields, jsEqB_refl v, jsEqBFields_refl fs]

end

theorem jsReplaceFirst_ebooks (t : String) :
    jsReplaceFirst ("ebooks/" ++ t) "ebooks/" "" = t := by
  cases t with
  | mk l =>
    have hd : ("ebooks/" ++ String.mk l).data = 'e' :: 'b' :: 'o' :: 'o' :: 'k' :: 's' :: '/' :: l := rfl
    rw [jsReplaceFirst, hd]
    simp [jsReplaceFirstChars, List.isPrefixOf, List.drop]

theorem insertMetadata_ok (store : List JsValue) (m : JsValue)
    (hid : jsLooseEqNull (objGet m "id") = false) :
    insertMetadata true none store m = .ok (upsertById store m) := by
  cases m <;> simp_all [insertMetadata, objGet, jsLooseEqNull]

theorem upsertById_filter (m : JsValue) :
    ∀ s : List JsValue,
      (s.filter (fun d => jsEqB (objGet d "id") (objGet m "id"))).length ≤ 1 →
      (upsertById s m).filter (fun d => jsEqB (objGet d "id") (objGet m "id")) = [m]
  | [], _ => by simp [upsertById, jsEqB_refl]
  | d :: s, h => by
    by_cases hd : jsEqB (objGet d "id") (objGet m "id") = true
    · have h2 : (s.filter (fun d => jsEqB (objGet d "id") (objGet m "id"))).length + 1 ≤ 1 := by
        simpa [List.filter_cons, hd] using h
      have hs : s.filter (fun d => jsEqB (objGet d "id") (objGet m "id")) = [] := by
        rw [← List.length_eq_zero]
        omega
      simp [upsertById, hd, List.filter_cons, jsEqB_refl, hs]
    · have hb : jsEqB (objGet d "id") (objGet m "id") = false := by
        simpa using hd
      have h2 : (s.filter (fun d => jsEqB (objGet d "id") (objGet m "id"))).length ≤ 1 := by
        simpa [List.filter_cons, hb] using h
      simp [upsertById, hb, List.filter_cons, upsertById_filter m s h2]

theorem mask_masked_inv (p : String) (xml : JsValue) (m : MaskedMetadata)
    (hm : (mask p (some xml)).1 = .masked m) :
    ∃ about sitems aitems,
      jsGet xml aboutPath = .vStr about ∧
      jsGetD xml subjectsPath (.vArr []) = .vArr sitems ∧
      jsGetD xml agentsPath (.vArr []) = .vArr aitems ∧
      m = maskFields xml (jsStringToNumber (jsReplaceFirst about "ebooks/" "")) sitems aitems := by
  simp only [mask] at hm
  cases hA : jsGet xml aboutPath <;> rw [hA] at hm <;> try simp at hm
  case vStr about =>
    cases hS : jsGetD xml subjectsPath (.vArr []) <;> rw [hS] at hm <;> try simp at hm
    case vArr sitems =>
      cases hG : jsGetD xml agentsPath (.vArr []) <;> rw [hG] at hm <;> try simp at hm
      case vArr aitems =>
        exact ⟨about, sitems, aitems, rfl, rfl, rfl, hm.symm⟩

theorem daysInMonth_le (y m : Int) : daysInMonth y m ≤ 31 := by
  unfold daysInMonth
  split_ifs <;> omega

theorem parseYmd_bound (y1 y2 y3 y4 h1 m1 m2 h2 d1 d2 : Char) (n : Int)
    (h : parseYmd y1 y2 y3 y4 h1 m1 m2 h2 d1 d2 = .num n) :
    n.natAbs ≤ 8640000000000000 := by
  unfold parseYmd at h
  split_ifs at h with hc hr
  · have hy : (isDig y1 && isDig y2 && isDig y3 && isDig y4) = true := by
      simp [Bool.and_eq_true] at hc ⊢
      tauto
    have hb1 : digitVal y1 ≤ 9 ∧ digitVal y2 ≤ 9 ∧ digitVal y3 ≤ 9 ∧ digitVal y4 ≤ 9 := by
      simp [Bool.and_eq_true, isDig, digitVal] at hy ⊢
      omega
    have hyb : 0 ≤ ymdYear y1 y2 y3 y4 ∧ ymdYear y1 y2 y3 y4 ≤ 9999 := by
      unfold ymdYear
      omega
    obtain ⟨hmo1, hmo2, hd1, hd2⟩ := hr
    have hdm := daysInMonth_le (ymdYear y1 y2 y3 y4) (ymdMonth m1 m2)
    injection h with h
    subst h
    unfold daysFromCivil
    simp only []
    omega

theorem jsDateParseChars_bound (cs : List Char) (n : Int)
    (h : jsDateParseChars cs = .num n) :
    n.natAbs ≤ 8640000000000000 := by
  unfold jsDateParseChars at h
  split at h
  · exact parseYmd_bound _ _ _ _ _ _ _ _ _ _ n h
  · exact absurd h (by simp)

theorem jsDateParse_valid (s : String) (n : Int)
    (h : jsDateParse (.vStr s) = .num n) :
    jsNewDate (.num n) = .validDate n := by
  have hb := jsDateParseChars_bound s.data n h
  have he : jsNewDate (.num n) =
      if n.natAbs ≤ 8640000000000000 then .validDate n else .invalidDate := rfl
  rw [he, if_pos hb]

/-- Claim C8: invoking `mask()` on an extractor with no parsed document
returns `null` and sends the non-fatal "document not ready" warning to the
debug sink instead of raising; and this soft-failure arises in no other case:
with a parsed document present, `mask()` never returns `null`. -/
theorem mask_no_document_soft_fail (p : String) :
    mask p none = (.nullResult, [.warnEntry parsedXmlNotFound p]) ∧
    ∀ xml : JsValue, (mask p (some xml)).1 ≠ .nullResult := by
  refine ⟨rfl, ?_⟩
  intro xml
  simp only [mask]
  cases jsGet xml aboutPath <;> try simp
  case vStr about =>
    cases jsGetD xml subjectsPath (.vArr []) <;> try simp
    case vArr sitems =>
      cases jsGetD xml agentsPath (.vArr []) <;> simp

/-- Witness for claim C8 at a concrete path and at the King James Bible
document. -/
theorem mask_no_document_soft_fail_witness :
    mask "file.rdf" none = (.nullResult, [.warnEntry parsedXmlNotFound "file.rdf"]) ∧
    (mask "file.rdf" (some kjvDoc)).1 ≠ .nullResult := by
  have h := mask_no_document_soft_fail "file.rdf"
  exact ⟨h.1, h.2 kjvDoc⟩

/-- Claim C10: on a parsed document whose tree has no first catalog-entry
resource-identifier attribute (the `rdf:about` path resolves to `undefined`),
`mask()` throws a `TypeError` — `.replace` invoked on `undefined` — rather
than returning a masked record with absent fields or `null`. -/
theorem mask_missing_about_throws (p : String) (xml : JsValue)
    (h : jsGet xml aboutPath = .vUndefined) :
    (mask p (some xml)).1 = .typeError "Cannot read properties of undefined" ∧
    (∀ m : MaskedMetadata, (mask p (some xml)).1 ≠ .masked m) ∧
    (mask p (some xml)).1 ≠ .nullResult := by
  have he : (mask p (some xml)).1 = .typeError "Cannot read properties of undefined" := by
    simp only [mask]
    rw [h]
  refine ⟨he, fun m hm => ?_, ?_⟩
  · rw [he] at hm
    cases hm
  · rw [he]
    nofun

/-- Witness for claim C10 at the empty parsed tree. -/
theorem mask_missing_about_throws_witness :
    (mask "p" (some (.vObj []))).1 = .typeError "Cannot read properties of undefined" :=
  (mask_missing_about_throws "p" (.vObj []) rfl).1

/-- Claim C5, counterexample: a parsed document whose resource identifier
merely ends in `ebooks/10` (here `http://x/ebooks/10`) is masked to id `NaN`,
not `10`: `.replace('ebooks/', '')` deletes the first occurrence of the
substring, leaving `http://x/10`, whose numeric coercion is `NaN`. -/
theorem mask_url_about_counterexample :
    List.isSuffixOf "ebooks/10".data "http://x/ebooks/10".data = true ∧
    (mask "p" (some urlAboutDoc)).1 = .masked urlAboutRecord ∧
    urlAboutRecord.id ≠ .num 10 := by
  refine ⟨by decide, rfl, by decide⟩

/-- Claim C5, amended: for a parsed document whose first catalog-entry
resource-identifier attribute is exactly `ebooks/10` (the form the catalog
uses), any masked record `mask()` yields has id `10`. -/
theorem mask_id_of_exact_about (p : String) (xml : JsValue) (m : MaskedMetadata)
    (hA : jsGet xml aboutPath = .vStr "ebooks/10")
    (hm : (mask p (some xml)).1 = .masked m) :
    m.id = .num 10 := by
  obtain ⟨about, sitems, aitems, hA2, hS, hG, hmf⟩ := mask_masked_inv p xml m hm
  rw [hA] at hA2
  injection hA2 with hab
  rw [hmf, ← hab]
  rfl

/-- Witness for claim C5's amended theorem at the catalog's King James Bible
record. -/
theorem mask_id_of_exact_about_witness : kjvRecord.id = .num 10 :=
  mask_id_of_exact_about "p" kjvDoc kjvRecord rfl rfl

/-- Claim C9: a resource identifier with a non-numeric suffix after the
`ebooks/` prefix does not make `mask()` raise; the masked record carries a
`NaN` id, and `DB.insertMetadata`'s missing-id assertion does not reject such
a record (`NaN == null` is false), so the write is issued. -/
theorem mask_nonnumeric_id_accepted (p : String) (xml : JsValue) (sfx : String)
    (m : MaskedMetadata)
    (hA : jsGet xml aboutPath = .vStr ("ebooks/" ++ sfx))
    (hN : jsStringToNumber sfx = .nan)
    (hm : (mask p (some xml)).1 = .masked m) :
    m.id = .nan ∧
    ∀ store : List JsValue,
      insertMetadata true none store (maskedToJs m) = .ok (upsertById store (maskedToJs m)) := by
  obtain ⟨about, sitems, aitems, hA2, hS, hG, hmf⟩ := mask_masked_inv p xml m hm
  rw [hA] at hA2
  injection hA2 with hab
  have hid : m.id = .nan := by
    rw [hmf, ← hab]
    show jsStringToNumber (jsReplaceFirst ("ebooks/" ++ sfx) "ebooks/" "") = .nan
    rw [jsReplaceFirst_ebooks, hN]
  refine ⟨hid, fun store => ?_⟩
  apply insertMetadata_ok
  have ho : objGet (maskedToJs m) "id" = .vNum m.id := rfl
  rw [ho, hid]
  rfl

/-- Witness for claim C9 at a document with resource identifier
`ebooks/xyz`. -/
theorem mask_nonnumeric_id_accepted_witness :
    nanAboutRecord.id = .nan ∧
    insertMetadata true none [] (maskedToJs nanAboutRecord) =
      .ok [maskedToJs nanAboutRecord] := by
  have h := mask_nonnumeric_id_accepted "p" nanAboutDoc "xyz" nanAboutRecord rfl rfl rfl
  exact ⟨h.1, h.2 []⟩

/-- Claim C6: in any masked record, the subjects and authors sequences are
exactly the per-entry extracted values that are truthy, in document order:
each survivor is truthy, the sequences are order-preserving subsequences of
the extracted values, and they are empty when no entries are present. -/
theorem mask_subjects_authors_filtered (p : String) (xml : JsValue) (m : MaskedMetadata)
    (sitems aitems : List JsValue)
    (hS : jsGetD xml subjectsPath (.vArr []) = .vArr sitems)
    (hG : jsGetD xml agentsPath (.vArr []) = .vArr aitems)
    (hm : (mask p (some xml)).1 = .masked m) :
    m.subjects = (sitems.map (fun it => jsGetD it subjectValuePath .vNull)).filter jsTruthy ∧
    m.authors = (aitems.map (fun it => jsGetD it agentNamePath .vNull)).filter jsTruthy ∧
    (∀ v ∈ m.subjects, jsTruthy v = true) ∧
    (∀ v ∈ m.authors, jsTruthy v = true) ∧
    m.subjects.Sublist (sitems.map (fun it => jsGetD it subjectValuePath .vNull)) ∧
    m.authors.Sublist (aitems.map (fun it => jsGetD it agentNamePath .vNull)) ∧
    (sitems = [] → m.subjects = []) ∧ (aitems = [] → m.authors = []) := by
  obtain ⟨about, sitems2, aitems2, hA2, hS2, hG2, hmf⟩ := mask_masked_inv p xml m hm
  rw [hS] at hS2
  injection hS2 with hs2
  rw [hG] at hG2
  injection hG2 with hg2
  subst hs2
  subst hg2
  subst hmf
  refine ⟨rfl, rfl, ?_, ?_, ?_, ?_, ?_, ?_⟩
  · intro v hv
    exact (List.mem_filter.mp hv).2
  · intro v hv
    exact (List.mem_filter.mp hv).2
  · exact List.filter_sublist _
  · exact List.filter_sublist _
  · intro h0
    subst h0
    rfl
  · intro h0
    subst h0
    rfl

/-- Witness for claim C6 at the King James Bible record: two truthy subjects
survive in order, and the absent creator entries yield an empty authors
sequence. -/
theorem mask_subjects_authors_filtered_witness :
    kjvRecord.subjects = [.vStr "Bible", .vStr "BS"] ∧ kjvRecord.authors = [] := by
  have h := mask_subjects_authors_filtered "p" kjvDoc kjvRecord kjvSubjectItems [] rfl rfl rfl
  exact ⟨h.1.trans (by rfl), h.2.1.trans (by rfl)⟩

/-- Claim C7: in any masked record, the publication date is absent (`null`)
exactly when the issued-date text is absent; a present but unparsable text
yields the explicit `Invalid Date` object, which is distinct from the absent
value; and a parsable text yields the parsed date as a valid `Date`. -/
theorem mask_publication_date_trichotomy (p : String) (xml : JsValue) (m : MaskedMetadata)
    (hm : (mask p (some xml)).1 = .masked m) :
    (jsLooseEqNull (jsGetD xml issuedPath .vNull) = true → m.publicationDate = none) ∧
    (∀ s : String, jsGetD xml issuedPath .vNull = .vStr s → jsDateParse (.vStr s) = .nan →
      m.publicationDate = some .invalidDate) ∧
    (∀ (s : String) (n : Int), jsGetD xml issuedPath .vNull = .vStr s →
      jsDateParse (.vStr s) = .num n → m.publicationDate = some (.validDate n)) ∧
    (∀ s : String, jsGetD xml issuedPath .vNull = .vStr s → m.publicationDate ≠ none) ∧
    some JsDate.invalidDate ≠ (none : Option JsDate) := by
  obtain ⟨about, sitems, aitems, hA2, hS2, hG2, hmf⟩ := mask_masked_inv p xml m hm
  have hpd : m.publicationDate =
      (if jsLooseEqNull (jsGetD xml issuedPath .vNull) then none
        else some (jsNewDate (jsDateParse (jsGetD xml issuedPath .vNull)))) := by
    rw [hmf]
    rfl
  refine ⟨?_, ?_, ?_, ?_, by nofun⟩
  · intro hnull
    rw [hpd, if_pos hnull]
  · intro s hs hn
    rw [hpd, hs, hn]
    rfl
  · intro s n hs hn
    rw [hpd, hs, hn]
    rw [jsDateParse_valid s n hn]
    rfl
  · intro s hs
    rw [hpd, hs]
    nofun

/-- Witness for claim C7 at the King James Bible record: the issued text
`1989-08-01` parses to the valid date 617932800000 ms. -/
theorem mask_publication_date_trichotomy_witness :
    kjvRecord.publicationDate = some (.validDate 617932800000) := by
  have h := mask_publication_date_trichotomy "p" kjvDoc kjvRecord rfl
  exact h.2.2.1 "1989-08-01" 617932800000 rfl rfl

/-- Claim C3: upserting two records with the same present id in succession —
against any store state satisfying the store's keying discipline (at most one
document matches that id) — leaves exactly one stored document keyed by the
id, and it is the second record in full: the upsert replaces the whole
document, with no field-level merge. -/
theorem insertMetadata_upsert_replaces (store : List JsValue) (r1 r2 : JsValue)
    (hid : jsLooseEqNull (objGet r1 "id") = false)
    (heq : objGet r1 "id" = objGet r2 "id")
    (hinv : (store.filter (fun d => jsEqB (objGet d "id") (objGet r2 "id"))).length ≤ 1) :
    insertMetadata true none store r1 = .ok (upsertById store r1) ∧
    insertMetadata true none (upsertById store r1) r2 =
      .ok (upsertById (upsertById store r1) r2) ∧
    (upsertById (upsertById store r1) r2).filter
      (fun d => jsEqB (objGet d "id") (objGet r2 "id")) = [r2] := by
  have hid2 : jsLooseEqNull (objGet r2 "id") = false := by
    rw [← heq]
    exact hid
  have h1 : (store.filter (fun d => jsEqB (objGet d "id") (objGet r1 "id"))).length ≤ 1 := by
    rw [heq]
    exact hinv
  have hf1 := upsertById_filter r1 store h1
  have h2 : ((upsertById store r1).filter
      (fun d => jsEqB (objGet d "id") (objGet r2 "id"))).length ≤ 1 := by
    rw [← heq, hf1]
    simp
  exact ⟨insertMetadata_ok store r1 hid, insertMetadata_ok (upsertById store r1) r2 hid2,
    upsertById_filter r2 (upsertById store r1) h2⟩

/-- Witness for claim C3: two successive upserts of records sharing id 1 into
the empty store leave exactly the second record. -/
theorem insertMetadata_upsert_replaces_witness :
    insertMetadata true none [] (.vObj [("id", .vNum (.num 1)), ("title", .vStr "a")]) =
      .ok [.vObj [("id", .vNum (.num 1)), ("title", .vStr "a")]] ∧
    insertMetadata true none [.vObj [("id", .vNum (.num 1)), ("title", .vStr "a")]]
      (.vObj [("id", .vNum (.num 1)), ("title", .vStr "b")]) =
      .ok [.vObj [("id", .vNum (.num 1)), ("title", .vStr "b")]] ∧
    ([.vObj [("id", .vNum (.num 1)), ("title", .vStr "b")]] : List JsValue).filter
      (fun d => jsEqB (objGet d "id")
        (objGet (.vObj [("id", .vNum (.num 1)), ("title", .vStr "b")]) "id")) =
      [.vObj [("id", .vNum (.num 1)), ("title", .vStr "b")]] := by
  have h := insertMetadata_upsert_replaces []
    (.vObj [("id", .vNum (.num 1)), ("title", .vStr "a")])
    (.vObj [("id", .vNum (.num 1)), ("title", .vStr "b")]) rfl rfl (by decide)
  exact ⟨h.1, h.2.1, h.2.2⟩

/-- Claim C4: offering the store a record without an id raises the validation
assertion and issues no write — regardless of how the database write would
have gone — while a record with a present id never takes the missing-id error
branch and is written. -/
theorem insertMetadata_missing_id (m : JsValue) :
    (∀ (w : Option JsError) (store : List JsValue),
      jsLooseEqNull m = false → jsLooseEqNull (objGet m "id") = true →
      insertMetadata true w store m =
        .error (.assertionError "Expected metadata.id == null to be false")) ∧
    (∀ store : List JsValue, jsLooseEqNull (objGet m "id") = false →
      insertMetadata true none store m = .ok (upsertById store m)) := by
  constructor
  · intro w store hnn hmid
    unfold insertMetadata
    rw [if_pos rfl, if_neg (by simp [hnn]), if_pos hmid]
  · intro store hmid
    exact insertMetadata_ok store m hmid

/-- Witness for claim C4: a record with only a title is rejected by the
assertion with no write; the same record with an id is stored. -/
theorem insertMetadata_missing_id_witness :
    insertMetadata true none [] (.vObj [("title", .vStr "a")]) =
      .error (.assertionError "Expected metadata.id == null to be false") ∧
    insertMetadata true none [] (.vObj [("id", .vNum (.num 2))]) =
      .ok [.vObj [("id", .vNum (.num 2))]] :=
  ⟨(insertMetadata_missing_id (.vObj [("title", .vStr "a")])).1 none [] rfl rfl,
    (insertMetadata_missing_id (.vObj [("id", .vNum (.num 2))])).2 [] rfl⟩

/-- Claim C1: whenever `execute` runs to completion — download, discovery and
the whole per-file loop raise no error — it returns `{ok: true, n: k}` with
`k` the number of discovered record files; in particular an archive expanding
to zero record files yields `{ok: true, n: 0}` and leaves the store untouched
(zero writes). -/
theorem execute_ok_count :
    (∀ (env : Env) (store : List JsValue) (r : ExecResult) (st : List JsValue)
      (lg : List LogEntry), execute env store = (.completed r, st, lg) →
      r.ok = true ∧ r.n = env.files.length) ∧
    (∀ (env : Env) (store : List JsValue),
      env.dl.httpGetSync = none → env.dl.streamError = none → env.dl.zipError = none →
      env.dl.tarError = none → env.files = [] →
      (execute env store).1 = .completed { ok := true, n := 0 } ∧
      (execute env store).2.1 = store) := by
  constructor
  · intro env store r st lg h
    unfold execute at h
    split at h
    · simp at h
    · simp at h
    · split at h
      · simp at h
      · simp only [Prod.mk.injEq] at h
        obtain ⟨h1, h2, h3⟩ := h
        injection h1 with h1
        rw [← h1]
        exact ⟨rfl, rfl⟩
  · intro env store h1 h2 h3 h4 h5
    simp [execute, downloadAndDecompress, processFiles, h1, h2, h3, h4, h5]

/-- Witness for claim C1: the zero-file environment returns `{ok: true, n: 0}`
with the store untouched, and the one-file environment's completed result
carries `ok = true` and the file count. -/
theorem execute_ok_count_witness :
    ((execute envEmpty []).1 = .completed { ok := true, n := 0 } ∧
      (execute envEmpty []).2.1 = []) ∧
    ({ ok := true, n := 1 } : ExecResult).ok = true ∧
    ({ ok := true, n := 1 } : ExecResult).n = envOneFile.files.length := by
  refine ⟨execute_ok_count.2 envEmpty [] rfl rfl rfl rfl rfl, ?_⟩
  exact execute_ok_count.1 envOneFile [] { ok := true, n := 1 }
    [maskedToJs kjvRecord]
    [.msg "Session id: s", .msg "Starting feed file download.",
      .msg "Finished feed file download.", .msg "Starting decompressing zip file.",
      .msg "Finished decompressing zip file.", .msg "Starting decompressing tar file.",
      .msg "Finished decompressing tar file.", .msg "Starting processing 1 files.",
      .msg "Finished processing files."] rfl

/-- Claim C2, evaluated at the failing input: when the inner tape-archive
extraction fails, the rejection of `tar.extract`'s promise has no handler, so
`downloadAndDecompress`'s promise never settles — `execute` neither returns
nor rethrows, and its debug log records no error; whereas a parse failure in
the per-file loop is logged and rethrown as the claim describes. -/
theorem execute_tar_error_not_propagated :
    (execute envTarFail []).1 = .noReturn tarCorrupt ∧
    (execute envTarFail []).1 ≠ .threw tarCorrupt ∧
    (execute envTarFail []).2.2 =
      [.msg "Session id: s", .msg "Starting feed file download.",
        .msg "Finished feed file download.", .msg "Starting decompressing zip file.",
        .msg "Finished decompressing zip file.", .msg "Starting decompressing tar file."] ∧
    (execute envParseFail []).1 = .threw parseFailure ∧
    (execute envParseFail []).2.2 =
      [.msg "Session id: s", .msg "Starting feed file download.",
        .msg "Finished feed file download.", .msg "Starting decompressing zip file.",
        .msg "Finished decompressing zip file.", .msg "Starting decompressing tar file.",
        .msg "Finished decompressing tar file.", .msg "Starting processing 1 files.",
        .errEntry parseFailure] := by
  refine ⟨rfl, by decide, rfl, rfl, rfl⟩
